import Mathlib

set_option maxHeartbeats 1000000
set_option synthInstance.maxHeartbeats 400000

namespace Retainr

/-! Shallow embedding of the retainr dunning-recovery backend
    (src/server/routes.ts, src/server/email.ts, shared schema).
    Tables are lists of rows; `serial` primary keys are modelled by a
    next-id counter on the database state; external collaborators
    (Stripe API, email API) are modelled by an environment of functions,
    and every outbound call is recorded in an `externalCalls` trace. -/

/-- Row of the `users` table (shared/schema.ts). -/
structure User where
  id : Nat
  email : String
  username : String
  password : String
  stripeAccountId : Option String
  isConnected : Bool
  subscriptionStatus : String
  createdAt : Nat
  deriving DecidableEq

/-- Row of the `failed_payments` table (shared/schema.ts). Timestamps are
    naturals (milliseconds since epoch). -/
structure FailedPayment where
  id : Nat
  userId : Nat
  stripePaymentIntentId : String
  stripeCustomerId : String
  customerEmail : String
  amount : Nat
  currency : String
  status : String
  failureReason : Option String
  attemptCount : Nat
  nextRetryAt : Option Nat
  createdAt : Nat
  recoveredAt : Option Nat
  deriving DecidableEq

/-- Row of the `dunning_logs` table (shared/schema.ts). -/
structure DunningLog where
  id : Nat
  failedPaymentId : Nat
  sentAt : Nat
  emailTemplate : String
  status : String
  deriving DecidableEq

/-- Row of the `email_templates` table (shared/schema.ts). -/
structure EmailTemplate where
  id : Nat
  userId : Nat
  type : String
  subject : String
  body : String
  isEnabled : Bool
  deriving DecidableEq

/-- The relational store: the four tables plus the serial counters used to
    assign fresh primary keys on insert. -/
structure DB where
  users : List User
  failedPayments : List FailedPayment
  emailTemplates : List EmailTemplate
  dunningLogs : List DunningLog
  nextFailedPaymentId : Nat
  nextDunningLogId : Nat
  deriving DecidableEq

/-- One outbound call to an external collaborator (Stripe or the email API). -/
inductive ExternalCall where
  | retrieveCustomer (customerId : String)
  | customersUpdate (customerId paymentMethodId : String)
  | confirmIntent (paymentIntentId : String)
  | sendEmail (toAddr subject body : String)
  deriving DecidableEq

/-- Server state: the database plus the trace of external calls made so far. -/
structure ServerState where
  db : DB
  externalCalls : List ExternalCall
  deriving DecidableEq

/-- The fields of a Stripe PaymentIntent object that routes.ts reads. -/
structure PaymentIntent where
  id : String
  on_behalf_of : Option String
  receipt_email : Option String
  customer : Option String
  amount : Nat
  currency : String
  last_payment_error_message : Option String
  deriving DecidableEq

/-- The fields of a Stripe Customer object that routes.ts reads. -/
structure StripeCustomer where
  deleted : Bool
  email : Option String
  deriving DecidableEq

/-- A parsed webhook event, as produced by `stripe.webhooks.constructEvent`:
    the two handled event types carry a PaymentIntent payload. -/
inductive WebhookEvent where
  | paymentIntentFailed (pi : PaymentIntent)
  | paymentIntentSucceeded (pi : PaymentIntent)
  | otherEvent (eventType : String)
  deriving DecidableEq

/-- The raw webhook request: body plus the `stripe-signature` header. -/
structure WebhookRequest where
  rawBody : String
  sigHeader : Option String
  deriving DecidableEq

/-- External environment: configuration secrets and the behaviour of the
    Stripe and email collaborators. `constructEvent` returns `none` when
    signature verification throws; the two Stripe mutation calls and the
    customer fetch return `Except` to model thrown API errors. -/
structure Env where
  webhookSecret : String
  baseUrl : String
  constructEvent : String → String → Option WebhookEvent
  retrieveCustomer : String → Except String StripeCustomer
  customersUpdate : String → String → Except String Unit
  confirmIntent : String → Except String Unit

/-- JavaScript string truthiness as used by routes.ts: `null`/`undefined`
    and the empty string are falsy (`!customerEmail`, `customer.email || null`). -/
def jsStr : Option String → Option String
  | some s => if s = "" then none else some s
  | none => none

/-- Embeds the drizzle update of routes.ts line 132: bump `attemptCount`
    on the row whose id matches. -/
def bumpAttempt (targetId : Nat) (fp : FailedPayment) : FailedPayment :=
  if fp.id == targetId then { fp with attemptCount := fp.attemptCount + 1 } else fp

/-- Embeds the drizzle update used at routes.ts lines 46 and 162: set
    `status := "recovered"` and `recoveredAt := now` on the row whose id matches. -/
def markRecovered (targetId : Nat) (now : Nat) (fp : FailedPayment) : FailedPayment :=
  if fp.id == targetId then { fp with status := "recovered", recoveredAt := some now } else fp

/-- Scan `l` left to right; at each position where `pattern` (non-empty) is
    a prefix, emit `replacement` and skip past the match, otherwise keep the
    character — the behaviour of a JavaScript global `replace` on a literal
    pattern. The fuel argument (the input length) makes the recursion
    structural. -/
def replaceAllFuel (pattern replacement : List Char) : Nat → List Char → List Char
  | _, [] => []
  | 0, l => l
  | fuel + 1, c :: rest =>
    if pattern ≠ [] ∧ pattern.isPrefixOf (c :: rest) then
      replacement ++
        replaceAllFuel pattern replacement fuel (rest.drop (pattern.length - 1))
    else
      c :: replaceAllFuel pattern replacement fuel rest

/-- Embeds a JavaScript `s.replace(/pattern/g, replacement)` on a literal
    pattern: every occurrence is replaced, left to right, without rescanning
    the replacement text. -/
def replaceAll (s pattern replacement : String) : String :=
  ⟨replaceAllFuel pattern.data replacement.data s.data.length s.data⟩

/-- Embeds the amount placeholder rendering of routes.ts line 193:
    `$` followed by `(amount / 100).toFixed(2)` for an integer minor-unit amount. -/
def formatAmount (amount : Nat) : String :=
  let cents := amount % 100
  "$" ++ toString (amount / 100) ++ "." ++
    (if cents < 10 then "0" ++ toString cents else toString cents)

/-- Embeds the customer-email resolution of routes.ts lines 114-125:
    take `receipt_email` if truthy; otherwise, when a customer id is
    present, fetch the customer from Stripe (a throwing call) and use its
    email when the customer is not deleted. Returns the resolved email (or
    the thrown error) together with the external calls made. -/
def resolveCustomerEmail (env : Env) (pi : PaymentIntent) :
    Except String (Option String) × List ExternalCall :=
  match jsStr pi.receipt_email with
  | some e => (.ok (some e), [])
  | none =>
    match pi.customer with
    | none => (.ok none, [])
    | some c =>
      match env.retrieveCustomer c with
      | .ok cust =>
        (.ok (if cust.deleted then none else jsStr cust.email), [.retrieveCustomer c])
      | .error e => (.error e, [.retrieveCustomer c])

/-- Embeds `sendDunningEmail` of routes.ts lines 169-203: re-fetch the
    payment by id, look up the first enabled `first_failure` template for
    the user, render the three placeholders, send the email, and append a
    DunningLog row with status `"sent"`. Missing payment or template is a
    silent no-op. -/
def sendDunningEmail (env : Env) (now : Nat) (failedPaymentId : Nat) (userId : Nat)
    (s : ServerState) : ServerState :=
  match s.db.failedPayments.find? (fun fp => fp.id == failedPaymentId) with
  | none => s
  | some payment =>
    match s.db.emailTemplates.find? (fun t =>
        t.userId == userId && t.type == "first_failure" && t.isEnabled) with
    | none => s
    | some templ =>
      let updateLink := env.baseUrl ++ "/payment/" ++ toString failedPaymentId
      let emailBody :=
        replaceAll (replaceAll (replaceAll templ.body
            "\x7b\x7bupdateLink\x7d\x7d" updateLink)
          "\x7b\x7bamount\x7d\x7d" (formatAmount payment.amount))
          "\x7b\x7bcustomerEmail\x7d\x7d" payment.customerEmail
      let s1 := { s with externalCalls := s.externalCalls ++
        [ExternalCall.sendEmail payment.customerEmail templ.subject emailBody] }
      let log : DunningLog := {
        id := s1.db.nextDunningLogId,
        failedPaymentId := payment.id,
        sentAt := now,
        emailTemplate := templ.type,
        status := "sent" }
      { s1 with db := { s1.db with
          dunningLogs := s1.db.dunningLogs ++ [log],
          nextDunningLogId := s1.db.nextDunningLogId + 1 } }

/-- Embeds `handlePaymentFailed` of routes.ts lines 95-154. Aborts silently
    when the connected account, user, or customer email is missing; if a
    FailedPayment with the same payment-intent id already exists, increments
    its attemptCount and stops; otherwise inserts a fresh row (status
    `"failed"`, attemptCount 1, nextRetryAt now + 24h) and invokes
    `sendDunningEmail`. A thrown Stripe customer fetch propagates as
    `.error` carrying the state at throw time. -/
def handlePaymentFailed (env : Env) (now : Nat) (pi : PaymentIntent) (s : ServerState) :
    Except (String × ServerState) ServerState :=
  match pi.on_behalf_of with
  | none => .ok s
  | some connectedAccountId =>
    match s.db.users.find? (fun u => u.stripeAccountId == some connectedAccountId) with
    | none => .ok s
    | some user =>
      let s1 := { s with externalCalls :=
        s.externalCalls ++ (resolveCustomerEmail env pi).2 }
      match (resolveCustomerEmail env pi).1 with
      | .error e => .error (e, s1)
      | .ok none => .ok s1
      | .ok (some customerEmail) =>
        match s1.db.failedPayments.find?
            (fun fp => fp.stripePaymentIntentId == pi.id) with
        | some existing =>
          .ok { s1 with db := { s1.db with
            failedPayments := s1.db.failedPayments.map (bumpAttempt existing.id) } }
        | none =>
          let fp : FailedPayment := {
            id := s1.db.nextFailedPaymentId,
            userId := user.id,
            stripePaymentIntentId := pi.id,
            stripeCustomerId := pi.customer.getD "",
            customerEmail := customerEmail,
            amount := pi.amount,
            currency := pi.currency,
            status := "failed",
            failureReason := pi.last_payment_error_message,
            attemptCount := 1,
            nextRetryAt := some (now + 24 * 60 * 60 * 1000),
            createdAt := now,
            recoveredAt := none }
          let s2 := { s1 with db := { s1.db with
            failedPayments := s1.db.failedPayments ++ [fp],
            nextFailedPaymentId := s1.db.nextFailedPaymentId + 1 } }
          .ok (sendDunningEmail env now fp.id user.id s2)

/-- Embeds `handlePaymentSucceeded` of routes.ts lines 156-167: when a
    FailedPayment with the payment-intent id of the event exists and still has
    status `"failed"`, mark it recovered and stamp `recoveredAt`. -/
def handlePaymentSucceeded (now : Nat) (pi : PaymentIntent) (s : ServerState) : ServerState :=
  match s.db.failedPayments.find? (fun fp => fp.stripePaymentIntentId == pi.id) with
  | some failedPayment =>
    if failedPayment.status == "failed" then
      { s with db := { s.db with
        failedPayments := s.db.failedPayments.map (markRecovered failedPayment.id now) } }
    else s
  | none => s

/-- Embeds the `switch (event.type)` dispatch of routes.ts lines 77-86. -/
def processEvent (env : Env) (now : Nat) (ev : WebhookEvent) (s : ServerState) :
    Except (String × ServerState) ServerState :=
  match ev with
  | .paymentIntentFailed pi => handlePaymentFailed env now pi s
  | .paymentIntentSucceeded pi => .ok (handlePaymentSucceeded now pi s)
  | .otherEvent _ => .ok s

/-- Embeds the webhook route of routes.ts lines 57-92: missing signature
    header or missing secret yields 400; a failed `constructEvent` yields
    400 with no state change; a processed event yields 200, and an error
    thrown during processing is caught and yields 500. The returned `Nat`
    is the HTTP status code. -/
def stripeWebhook (env : Env) (now : Nat) (req : WebhookRequest) (s : ServerState) :
    Nat × ServerState :=
  match req.sigHeader with
  | none => (400, s)
  | some sig =>
    if env.webhookSecret = "" then (400, s)
    else
      match env.constructEvent req.rawBody sig with
      | none => (400, s)
      | some event =>
        match processEvent env now event s with
        | .ok s2 => (200, s2)
        | .error (_, sErr) => (500, sErr)

/-- Embeds the recovery endpoint of routes.ts lines 27-54
    (`POST /api/public/payment/:id/update`): 404 when the payment id is
    unknown; otherwise update the default payment method of the Stripe customer,
    confirm the payment intent, and on success blindly set the row to
    `status := "recovered"`, `recoveredAt := now`; a thrown Stripe call
    yields 500 with no database write. -/
def updatePaymentMethod (env : Env) (now : Nat) (paymentId : Nat)
    (paymentMethodId : String) (s : ServerState) : Nat × ServerState :=
  match s.db.failedPayments.find? (fun fp => fp.id == paymentId) with
  | none => (404, s)
  | some payment =>
    let s1 := { s with externalCalls :=
      s.externalCalls ++ [.customersUpdate payment.stripeCustomerId paymentMethodId] }
    match env.customersUpdate payment.stripeCustomerId paymentMethodId with
    | .error _ => (500, s1)
    | .ok _ =>
      let s2 := { s1 with externalCalls :=
        s1.externalCalls ++ [.confirmIntent payment.stripePaymentIntentId] }
      match env.confirmIntent payment.stripePaymentIntentId with
      | .error _ => (500, s2)
      | .ok _ =>
        (200, { s2 with db := { s2.db with
          failedPayments := s2.db.failedPayments.map (markRecovered paymentId now) } })

/-- The empty initial state: no rows, serial counters at 1. -/
def initialState : ServerState :=
  { db := { users := [], failedPayments := [], emailTemplates := [],
            dunningLogs := [], nextFailedPaymentId := 1, nextDunningLogId := 1 },
    externalCalls := [] }

/-- Run a sequence of webhook requests (each paired with its arrival time)
    through the webhook route, threading the state. -/
def runWebhooks (env : Env) (s : ServerState) (reqs : List (Nat × WebhookRequest)) :
    ServerState :=
  reqs.foldl (fun st p => (stripeWebhook env p.1 p.2 st).2) s

/-- Well-formedness of the failed-payments table maintained by the code:
    pairwise-distinct payment-intent ids, pairwise-distinct primary keys,
    and every primary key below the serial counter. -/
def DBInv (db : DB) : Prop :=
  db.failedPayments.Pairwise
      (fun a b => a.stripePaymentIntentId ≠ b.stripePaymentIntentId) ∧
  db.failedPayments.Pairwise (fun a b => a.id ≠ b.id) ∧
  ∀ fp ∈ db.failedPayments, fp.id < db.nextFailedPaymentId

/-- The invariant stated by the spec: at most one FailedPayment row whose status is not
    `"recovered"` exists per payment-intent id. -/
def nonRecoveredUnique (db : DB) : Prop :=
  db.failedPayments.Pairwise (fun a b =>
    a.status ≠ "recovered" → b.status ≠ "recovered" →
      a.stripePaymentIntentId ≠ b.stripePaymentIntentId)

/-- Recognises an email-API call in the external-call trace. -/
def isSendEmailCall : ExternalCall → Bool
  | .sendEmail _ _ _ => true
  | _ => false

/-! Concrete fixtures used to evaluate the model on explicit inputs. -/

/-- A connected user owning the Stripe account `acct_1`. -/
def cUser : User :=
  { id := 7, email := "owner@merchant.com", username := "owner", password := "hash",
    stripeAccountId := some "acct_1", isConnected := true,
    subscriptionStatus := "active", createdAt := 0 }

/-- An enabled `first_failure` template for user 7 whose body uses the
    amount placeholder. -/
def cTemplate : EmailTemplate :=
  { id := 1, userId := 7, type := "first_failure", subject := "Payment failed",
    body := "Pay \x7b\x7bamount\x7d\x7d", isEnabled := true }

/-- A failed PaymentIntent event payload on the connected account `acct_1`. -/
def cPI : PaymentIntent :=
  { id := "pi_1", on_behalf_of := some "acct_1",
    receipt_email := some "customer@shop.com", customer := some "cus_1",
    amount := 4999, currency := "usd",
    last_payment_error_message := some "card_declined" }

/-- An empty store that knows user 7 and their template. -/
def cState : ServerState :=
  { db := { users := [cUser], failedPayments := [], emailTemplates := [cTemplate],
            dunningLogs := [], nextFailedPaymentId := 1, nextDunningLogId := 1 },
    externalCalls := [] }

/-- An environment whose Stripe calls all succeed and whose webhook
    verification yields the failed-payment event for `cPI`. -/
def cEnv : Env :=
  { webhookSecret := "whsec_1", baseUrl := "https://retainr.app",
    constructEvent := fun _ _ => some (WebhookEvent.paymentIntentFailed cPI),
    retrieveCustomer := fun _ => .ok { deleted := false, email := some "customer@shop.com" },
    customersUpdate := fun _ _ => .ok (),
    confirmIntent := fun _ => .ok () }

/-- A webhook request carrying a signature header. -/
def cReq : WebhookRequest := { rawBody := "payload", sigHeader := some "t=1,v1=sig" }

/-- A tracked failed payment for `pi_1`, attemptCount 1. -/
def cFailedRow : FailedPayment :=
  { id := 1, userId := 7, stripePaymentIntentId := "pi_1",
    stripeCustomerId := "cus_1", customerEmail := "customer@shop.com",
    amount := 4999, currency := "usd", status := "failed", failureReason := none,
    attemptCount := 1, nextRetryAt := some 86400000, createdAt := 0,
    recoveredAt := none }

/-- The store of `cState` with the tracked row `cFailedRow`. -/
def cStateWithRow : ServerState :=
  { db := { users := [cUser], failedPayments := [cFailedRow],
            emailTemplates := [cTemplate], dunningLogs := [],
            nextFailedPaymentId := 2, nextDunningLogId := 1 },
    externalCalls := [] }

/-- The result of redelivering the failed event for `pi_1` to
    `cStateWithRow`: same single row, attemptCount bumped to 2. -/
def cStateBumped : ServerState :=
  { cStateWithRow with db := { cStateWithRow.db with
      failedPayments := [{ cFailedRow with attemptCount := 2 }] } }

/-- The tracked row after recovery, recoveredAt stamped at 50. -/
def cRecoveredRow : FailedPayment :=
  { cFailedRow with status := "recovered", recoveredAt := some 50 }

/-- The store of `cStateWithRow` with the row already recovered. -/
def cStateRecovered : ServerState :=
  { cStateWithRow with db := { cStateWithRow.db with
      failedPayments := [cRecoveredRow] } }

/-- A user with no email template configured. -/
def cUserNoTemplate : User :=
  { id := 9, email := "quiet@merchant.com", username := "quiet", password := "hash",
    stripeAccountId := some "acct_9", isConnected := true,
    subscriptionStatus := "active", createdAt := 0 }

/-- A failed PaymentIntent event on the template-less account `acct_9`. -/
def cPINoTemplate : PaymentIntent :=
  { id := "pi_9", on_behalf_of := some "acct_9",
    receipt_email := some "buyer@shop.com", customer := some "cus_9",
    amount := 1200, currency := "usd", last_payment_error_message := none }

/-- A store that knows user 9, who has no template. -/
def cStateNoTemplate : ServerState :=
  { db := { users := [cUserNoTemplate], failedPayments := [],
            emailTemplates := [cTemplate], dunningLogs := [],
            nextFailedPaymentId := 1, nextDunningLogId := 1 },
    externalCalls := [] }

/-- A failed PaymentIntent whose email must be fetched from Stripe. -/
def cPIThrow : PaymentIntent :=
  { id := "pi_2", on_behalf_of := some "acct_1", receipt_email := none,
    customer := some "cus_2", amount := 100, currency := "usd",
    last_payment_error_message := none }

/-- An environment whose customer fetch throws, so that processing the
    event of `cPIThrow` raises an internal error after signature
    verification has passed. -/
def cEnvThrow : Env :=
  { cEnv with
    constructEvent := fun _ _ => some (WebhookEvent.paymentIntentFailed cPIThrow),
    retrieveCustomer := fun _ => .error "connection reset" }

/-! Helper lemmas about the row-level update functions. -/

theorem bumpAttempt_piId (tid : Nat) (fp : FailedPayment) :
    (bumpAttempt tid fp).stripePaymentIntentId = fp.stripePaymentIntentId := by
  unfold bumpAttempt; split <;> rfl

theorem bumpAttempt_id (tid : Nat) (fp : FailedPayment) :
    (bumpAttempt tid fp).id = fp.id := by
  unfold bumpAttempt; split <;> rfl

theorem bumpAttempt_status (tid : Nat) (fp : FailedPayment) :
    (bumpAttempt tid fp).status = fp.status := by
  unfold bumpAttempt; split <;> rfl

theorem bumpAttempt_self (fp : FailedPayment) :
    bumpAttempt fp.id fp = { fp with attemptCount := fp.attemptCount + 1 } := by
  unfold bumpAttempt; simp

theorem markRecovered_piId (tid now : Nat) (fp : FailedPayment) :
    (markRecovered tid now fp).stripePaymentIntentId = fp.stripePaymentIntentId := by
  unfold markRecovered; split <;> rfl

theorem markRecovered_id (tid now : Nat) (fp : FailedPayment) :
    (markRecovered tid now fp).id = fp.id := by
  unfold markRecovered; split <;> rfl

theorem markRecovered_customer (tid now : Nat) (fp : FailedPayment) :
    (markRecovered tid now fp).stripeCustomerId = fp.stripeCustomerId := by
  unfold markRecovered; split <;> rfl

theorem markRecovered_self (now : Nat) (fp : FailedPayment) :
    markRecovered fp.id now fp =
      { fp with status := "recovered", recoveredAt := some now } := by
  unfold markRecovered; simp

/-- The email-resolution step never calls the email API. -/
theorem resolveCalls_no_send (env : Env) (pi : PaymentIntent) :
    ((resolveCustomerEmail env pi).2).filter isSendEmailCall = [] := by
  unfold resolveCustomerEmail
  split
  · rfl
  · split
    · rfl
    · split <;> simp [isSendEmailCall]

/-- `sendDunningEmail` never touches the failed-payments table, the other
    lookup tables, or the failed-payment serial counter. -/
theorem sendDunningEmail_db_preserved (env : Env) (now i u : Nat) (s : ServerState) :
    (sendDunningEmail env now i u s).db.failedPayments = s.db.failedPayments ∧
    (sendDunningEmail env now i u s).db.nextFailedPaymentId = s.db.nextFailedPaymentId ∧
    (sendDunningEmail env now i u s).db.users = s.db.users ∧
    (sendDunningEmail env now i u s).db.emailTemplates = s.db.emailTemplates := by
  unfold sendDunningEmail
  split
  · exact ⟨rfl, rfl, rfl, rfl⟩
  · split
    · exact ⟨rfl, rfl, rfl, rfl⟩
    · exact ⟨rfl, rfl, rfl, rfl⟩

/-- Characterisation of `handlePaymentFailed` on the already-tracked branch:
    when the gates pass and a row with the payment-intent id of the event exists,
    the result is exactly the input state with the attemptCount of that row
    bumped (plus the trace of the email-resolution calls). -/
theorem handlePaymentFailed_existing_eq (env : Env) (now : Nat) (pi : PaymentIntent)
    (s : ServerState) (acct : String) (user : User) (email : String) (ex : FailedPayment)
    (hacct : pi.on_behalf_of = some acct)
    (huser : s.db.users.find? (fun u => u.stripeAccountId == some acct) = some user)
    (hres : (resolveCustomerEmail env pi).1 = Except.ok (some email))
    (hfind : s.db.failedPayments.find?
      (fun fp => fp.stripePaymentIntentId == pi.id) = some ex) :
    handlePaymentFailed env now pi s = Except.ok
      { s with
        externalCalls := s.externalCalls ++ (resolveCustomerEmail env pi).2,
        db := { s.db with
          failedPayments := s.db.failedPayments.map (bumpAttempt ex.id) } } := by
  unfold handlePaymentFailed
  rw [hacct]
  simp only [huser, hres, hfind]

/-- On a thrown customer fetch, `handlePaymentFailed` reports the error with
    a state whose database is untouched. -/
theorem handlePaymentFailed_error_db (env : Env) (now : Nat) (pi : PaymentIntent)
    (s : ServerState) (e : String) (sErr : ServerState)
    (h : handlePaymentFailed env now pi s = Except.error (e, sErr)) :
    sErr.db = s.db := by
  unfold handlePaymentFailed at h
  split at h
  · cases h
  · split at h
    · cases h
    · split at h
      · cases h; rfl
      · cases h
      · simp only [] at h
        split at h
        · cases h
        · cases h

/-- `find?` commutes with a map that does not change the verdict of the predicate. -/
theorem find?_map_pred {α : Type} (f : α → α) (p : α → Bool)
    (hf : ∀ x, p (f x) = p x) (l : List α) :
    (l.map f).find? p = (l.find? p).map f := by
  rw [List.find?_map]
  have h : (p ∘ f) = p := funext hf
  rw [h]

theorem bumpAttempt_eq_of_id (tid : Nat) (fp : FailedPayment) (h : fp.id = tid) :
    bumpAttempt tid fp = { fp with attemptCount := fp.attemptCount + 1 } := by
  unfold bumpAttempt; simp [h]

theorem markRecovered_eq_of_id (tid now : Nat) (fp : FailedPayment) (h : fp.id = tid) :
    markRecovered tid now fp =
      { fp with status := "recovered", recoveredAt := some now } := by
  unfold markRecovered; simp [h]

/-- When the payment and an enabled `first_failure` template are both found,
    `sendDunningEmail` appends exactly one email call and one DunningLog row
    and leaves everything else alone. -/
theorem sendDunningEmail_sends (env : Env) (now i u : Nat) (s : ServerState)
    (payment : FailedPayment) (templ : EmailTemplate)
    (hp : s.db.failedPayments.find? (fun fp => fp.id == i) = some payment)
    (ht : s.db.emailTemplates.find? (fun t =>
      t.userId == u && t.type == "first_failure" && t.isEnabled) = some templ) :
    ∃ body log,
      (sendDunningEmail env now i u s).externalCalls =
        s.externalCalls ++ [ExternalCall.sendEmail payment.customerEmail templ.subject body] ∧
      (sendDunningEmail env now i u s).db.dunningLogs = s.db.dunningLogs ++ [log] := by
  unfold sendDunningEmail
  simp only [hp, ht]
  exact ⟨_, _, rfl, rfl⟩

/-- When no enabled `first_failure` template exists for the user,
    `sendDunningEmail` is the identity. -/
theorem sendDunningEmail_skip (env : Env) (now i u : Nat) (s : ServerState)
    (ht : s.db.emailTemplates.find? (fun t =>
      t.userId == u && t.type == "first_failure" && t.isEnabled) = none) :
    sendDunningEmail env now i u s = s := by
  unfold sendDunningEmail
  split
  · rfl
  · rw [ht]

/-- Characterisation of `handlePaymentFailed` on the insert branch: when the
    gates pass and no row with the payment-intent id of the event exists, a fresh
    row is appended (status `"failed"`, attemptCount 1, nextRetryAt now+24h)
    and `sendDunningEmail` is invoked on the updated state. -/
theorem handlePaymentFailed_insert_eq (env : Env) (now : Nat) (pi : PaymentIntent)
    (s : ServerState) (acct : String) (user : User) (email : String)
    (hacct : pi.on_behalf_of = some acct)
    (huser : s.db.users.find? (fun u => u.stripeAccountId == some acct) = some user)
    (hres : (resolveCustomerEmail env pi).1 = Except.ok (some email))
    (hnone : s.db.failedPayments.find?
      (fun fp => fp.stripePaymentIntentId == pi.id) = none) :
    handlePaymentFailed env now pi s = Except.ok
      (sendDunningEmail env now s.db.nextFailedPaymentId user.id
        { s with
          externalCalls := s.externalCalls ++ (resolveCustomerEmail env pi).2,
          db := { s.db with
            failedPayments := s.db.failedPayments ++ [{
              id := s.db.nextFailedPaymentId,
              userId := user.id,
              stripePaymentIntentId := pi.id,
              stripeCustomerId := pi.customer.getD "",
              customerEmail := email,
              amount := pi.amount,
              currency := pi.currency,
              status := "failed",
              failureReason := pi.last_payment_error_message,
              attemptCount := 1,
              nextRetryAt := some (now + 24 * 60 * 60 * 1000),
              createdAt := now,
              recoveredAt := none }],
            nextFailedPaymentId := s.db.nextFailedPaymentId + 1 } }) := by
  unfold handlePaymentFailed
  rw [hacct]
  simp only [huser, hres, hnone]

/-- Characterisation of the recovery endpoint on the success path: both
    Stripe calls succeed, the row is blindly marked recovered at the current
    time, and the response is 200. -/
theorem updatePaymentMethod_success_eq (env : Env) (now pid : Nat) (pm : String)
    (s : ServerState) (payment : FailedPayment)
    (hfind : s.db.failedPayments.find? (fun fp => fp.id == pid) = some payment)
    (hupd : env.customersUpdate payment.stripeCustomerId pm = Except.ok ())
    (hconf : env.confirmIntent payment.stripePaymentIntentId = Except.ok ()) :
    updatePaymentMethod env now pid pm s = (200,
      { s with
        externalCalls := (s.externalCalls ++
          [ExternalCall.customersUpdate payment.stripeCustomerId pm]) ++
          [ExternalCall.confirmIntent payment.stripePaymentIntentId],
        db := { s.db with
          failedPayments := s.db.failedPayments.map (markRecovered pid now) } }) := by
  unfold updatePaymentMethod
  simp only [hfind, hupd, hconf]

/-- A freshly appended row with an id above every existing id is what a
    lookup by that id finds. -/
theorem find?_id_append_fresh (l : List FailedPayment) (fp : FailedPayment) (n : Nat)
    (hfp : fp.id = n) (hl : ∀ x ∈ l, x.id < n) :
    (l ++ [fp]).find? (fun x => x.id == n) = some fp := by
  rw [List.find?_append]
  have h1 : l.find? (fun x => x.id == n) = none :=
    List.find?_eq_none.mpr (fun x hx => by
      simp only [beq_iff_eq]
      exact Nat.ne_of_lt (hl x hx))
  rw [h1]
  simp [List.find?, hfp]

/-! Preservation of the failed-payments table invariant. -/

theorem DBInv_congr (db db' : DB)
    (h1 : db'.failedPayments = db.failedPayments)
    (h2 : db'.nextFailedPaymentId = db.nextFailedPaymentId)
    (h : DBInv db) : DBInv db' := by
  unfold DBInv at *
  rw [h1, h2]
  exact h

theorem DBInv_map (db : DB) (f : FailedPayment → FailedPayment)
    (hpi : ∀ fp, (f fp).stripePaymentIntentId = fp.stripePaymentIntentId)
    (hid : ∀ fp, (f fp).id = fp.id)
    (h : DBInv db) :
    DBInv { db with failedPayments := db.failedPayments.map f } := by
  obtain ⟨h1, h2, h3⟩ := h
  refine ⟨?_, ?_, ?_⟩
  · exact h1.map f (fun a b hab => by rw [hpi, hpi]; exact hab)
  · exact h2.map f (fun a b hab => by rw [hid, hid]; exact hab)
  · intro fp hfp
    rcases List.mem_map.mp hfp with ⟨x, hx, rfl⟩
    rw [hid]
    exact h3 x hx

theorem DBInv_insert (db : DB) (fp : FailedPayment) (piId : String)
    (hpi : fp.stripePaymentIntentId = piId)
    (hnone : db.failedPayments.find?
      (fun x => x.stripePaymentIntentId == piId) = none)
    (hfpid : fp.id = db.nextFailedPaymentId)
    (h : DBInv db) :
    DBInv { db with failedPayments := db.failedPayments ++ [fp],
                    nextFailedPaymentId := db.nextFailedPaymentId + 1 } := by
  obtain ⟨h1, h2, h3⟩ := h
  have hall := List.find?_eq_none.mp hnone
  refine ⟨?_, ?_, ?_⟩
  · rw [List.pairwise_append]
    refine ⟨h1, by simp, fun a ha b hb => ?_⟩
    have hb' : b = fp := by simpa using hb
    subst hb'
    rw [hpi]
    simpa using hall a ha
  · rw [List.pairwise_append]
    refine ⟨h2, by simp, fun a ha b hb => ?_⟩
    have hb' : b = fp := by simpa using hb
    subst hb'
    rw [hfpid]
    exact Nat.ne_of_lt (h3 a ha)
  · intro x hx
    rcases List.mem_append.mp hx with hx | hx
    · exact Nat.lt_succ_of_lt (h3 x hx)
    · have hx' : x = fp := by simpa using hx
      subst hx'
      rw [hfpid]
      exact Nat.lt_succ_self _

theorem DBInv_handlePaymentFailed (env : Env) (now : Nat) (pi : PaymentIntent)
    (s s2 : ServerState) (h : DBInv s.db)
    (hok : handlePaymentFailed env now pi s = Except.ok s2) :
    DBInv s2.db := by
  unfold handlePaymentFailed at hok
  split at hok
  · cases hok; exact h
  · split at hok
    · cases hok; exact h
    · split at hok
      · cases hok
      · cases hok; exact h
      · simp only [] at hok
        split at hok
        · cases hok
          exact DBInv_map s.db _ (bumpAttempt_piId _) (bumpAttempt_id _) h
        · rename_i user heqUser heqRes heqNone
          cases hok
          obtain ⟨hfp, hnext, _, _⟩ := sendDunningEmail_db_preserved env now _ _ _
          refine DBInv_congr _ _ hfp hnext ?_
          exact DBInv_insert s.db _ pi.id rfl heqNone rfl h

theorem DBInv_handlePaymentSucceeded (now : Nat) (pi : PaymentIntent)
    (s : ServerState) (h : DBInv s.db) :
    DBInv (handlePaymentSucceeded now pi s).db := by
  unfold handlePaymentSucceeded
  split
  · split
    · exact DBInv_map s.db _ (markRecovered_piId _ _) (markRecovered_id _ _) h
    · exact h
  · exact h

theorem DBInv_stripeWebhook (env : Env) (now : Nat) (req : WebhookRequest)
    (s : ServerState) (h : DBInv s.db) :
    DBInv (stripeWebhook env now req s).2.db := by
  unfold stripeWebhook
  split
  · exact h
  · split
    · exact h
    · split
      · exact h
      · split
        · rename_i ev _ s2 heq
          unfold processEvent at heq
          split at heq
          · exact DBInv_handlePaymentFailed env now _ s s2 h heq
          · cases heq; exact DBInv_handlePaymentSucceeded now _ s h
          · cases heq; exact h
        · rename_i ev _ e sErr heq
          unfold processEvent at heq
          split at heq
          · rw [handlePaymentFailed_error_db env now _ s e sErr heq]
            exact h
          · cases heq
          · cases heq

theorem DBInv_runWebhooks (env : Env) (reqs : List (Nat × WebhookRequest)) :
    ∀ s : ServerState, DBInv s.db → DBInv (runWebhooks env s reqs).db := by
  induction reqs with
  | nil => intro s h; exact h
  | cons p t ih =>
    intro s h
    exact ih _ (DBInv_stripeWebhook env p.1 p.2 s h)

theorem DBInv_initialState : DBInv initialState.db := by
  refine ⟨.nil, .nil, ?_⟩
  intro fp h
  cases h

/-- C1: across any sequence of webhook deliveries starting from the empty
    store, at most one FailedPayment row exists per payment-intent id with
    status other than `"recovered"`; and a `payment_intent.payment_failed`
    event whose payment-intent id matches an existing row never inserts a
    second row (the table length is unchanged). -/
theorem failedPayment_nonrecovered_unique (env : Env)
    (reqs : List (Nat × WebhookRequest)) :
    nonRecoveredUnique (runWebhooks env initialState reqs).db ∧
    ∀ (now : Nat) (pi : PaymentIntent) (s s2 : ServerState) (ex : FailedPayment),
      s.db.failedPayments.find?
        (fun fp => fp.stripePaymentIntentId == pi.id) = some ex →
      handlePaymentFailed env now pi s = Except.ok s2 →
      s2.db.failedPayments.length = s.db.failedPayments.length := by
  constructor
  · have h := DBInv_runWebhooks env reqs initialState DBInv_initialState
    exact List.Pairwise.imp (fun hab _ _ => hab) h.1
  · intro now pi s s2 ex hfind hok
    unfold handlePaymentFailed at hok
    split at hok
    · cases hok; rfl
    · split at hok
      · cases hok; rfl
      · split at hok
        · cases hok
        · cases hok; rfl
        · simp only [] at hok
          split at hok
          · cases hok; simp
          · rename_i heq
            rw [hfind] at heq
            cases heq

/-- Witness for C1: the invariant holds after delivering the concrete
    webhook request to the empty store. -/
theorem failedPayment_nonrecovered_unique_witness :
    nonRecoveredUnique (runWebhooks cEnv initialState [(0, cReq)]).db :=
  (failedPayment_nonrecovered_unique cEnv [(0, cReq)]).1

/-- C2: a `payment_intent.payment_failed` event with a never-before-seen
    payment-intent id, a resolvable user and customer email, inserts exactly
    one FailedPayment row (status `"failed"`, attemptCount 1, nextRetryAt
    now + 24h) and, given an enabled `first_failure` template for the user,
    appends exactly one DunningLog row. -/
theorem first_failure_creates_row_and_log (env : Env) (now : Nat)
    (pi : PaymentIntent) (s : ServerState) (acct : String) (user : User)
    (email : String) (templ : EmailTemplate)
    (hacct : pi.on_behalf_of = some acct)
    (huser : s.db.users.find? (fun u => u.stripeAccountId == some acct) = some user)
    (hres : (resolveCustomerEmail env pi).1 = Except.ok (some email))
    (hnone : s.db.failedPayments.find?
      (fun fp => fp.stripePaymentIntentId == pi.id) = none)
    (hids : ∀ fp ∈ s.db.failedPayments, fp.id < s.db.nextFailedPaymentId)
    (htempl : s.db.emailTemplates.find? (fun t =>
      t.userId == user.id && t.type == "first_failure" && t.isEnabled) = some templ) :
    ∃ s2, handlePaymentFailed env now pi s = Except.ok s2 ∧
      (∃ fp, s2.db.failedPayments = s.db.failedPayments ++ [fp] ∧
        fp.stripePaymentIntentId = pi.id ∧ fp.status = "failed" ∧
        fp.attemptCount = 1 ∧ fp.nextRetryAt = some (now + 24 * 60 * 60 * 1000)) ∧
      (∃ log, s2.db.dunningLogs = s.db.dunningLogs ++ [log]) := by
  have hins := handlePaymentFailed_insert_eq env now pi s acct user email
    hacct huser hres hnone
  obtain ⟨body, log, hcalls, hlogs⟩ := sendDunningEmail_sends env now
    s.db.nextFailedPaymentId user.id
    { s with
      externalCalls := s.externalCalls ++ (resolveCustomerEmail env pi).2,
      db := { s.db with
        failedPayments := s.db.failedPayments ++ [{
          id := s.db.nextFailedPaymentId,
          userId := user.id,
          stripePaymentIntentId := pi.id,
          stripeCustomerId := pi.customer.getD "",
          customerEmail := email,
          amount := pi.amount,
          currency := pi.currency,
          status := "failed",
          failureReason := pi.last_payment_error_message,
          attemptCount := 1,
          nextRetryAt := some (now + 24 * 60 * 60 * 1000),
          createdAt := now,
          recoveredAt := none }],
        nextFailedPaymentId := s.db.nextFailedPaymentId + 1 } }
    _ templ (find?_id_append_fresh _ _ _ rfl hids) htempl
  refine ⟨_, hins, ?_, ⟨log, by rw [hlogs]⟩⟩
  refine ⟨{
      id := s.db.nextFailedPaymentId,
      userId := user.id,
      stripePaymentIntentId := pi.id,
      stripeCustomerId := pi.customer.getD "",
      customerEmail := email,
      amount := pi.amount,
      currency := pi.currency,
      status := "failed",
      failureReason := pi.last_payment_error_message,
      attemptCount := 1,
      nextRetryAt := some (now + 24 * 60 * 60 * 1000),
      createdAt := now,
      recoveredAt := none }, ?_, rfl, rfl, rfl, rfl⟩
  rw [(sendDunningEmail_db_preserved env now s.db.nextFailedPaymentId user.id _).1]

/-- Witness for C2 at the concrete first-failure fixture. -/
theorem first_failure_creates_row_and_log_witness :
    ∃ s2, handlePaymentFailed cEnv 500 cPI cState = Except.ok s2 ∧
      (∃ fp, s2.db.failedPayments = cState.db.failedPayments ++ [fp] ∧
        fp.stripePaymentIntentId = cPI.id ∧ fp.status = "failed" ∧
        fp.attemptCount = 1 ∧ fp.nextRetryAt = some (500 + 24 * 60 * 60 * 1000)) ∧
      (∃ log, s2.db.dunningLogs = cState.db.dunningLogs ++ [log]) :=
  first_failure_creates_row_and_log cEnv 500 cPI cState "acct_1" cUser
    "customer@shop.com" cTemplate rfl rfl rfl rfl
    (by intro fp h; simp [cState] at h) rfl

/-- C3: redelivering the failed-payment event for an already-tracked
    payment-intent id creates no second row, increments the attemptCount of
    that row from 1 to 2, and appends no DunningLog row and no email
    call. -/
theorem redelivery_increments_without_duplicate (env : Env) (now : Nat)
    (pi : PaymentIntent) (s : ServerState) (acct : String) (user : User)
    (email : String) (ex : FailedPayment)
    (hacct : pi.on_behalf_of = some acct)
    (huser : s.db.users.find? (fun u => u.stripeAccountId == some acct) = some user)
    (hres : (resolveCustomerEmail env pi).1 = Except.ok (some email))
    (hfind : s.db.failedPayments.find?
      (fun fp => fp.stripePaymentIntentId == pi.id) = some ex)
    (hone : ex.attemptCount = 1) :
    ∃ s2, handlePaymentFailed env now pi s = Except.ok s2 ∧
      s2.db.failedPayments.length = s.db.failedPayments.length ∧
      (∃ fp2 ∈ s2.db.failedPayments, fp2.id = ex.id ∧ fp2.attemptCount = 2) ∧
      s2.db.dunningLogs = s.db.dunningLogs ∧
      s2.externalCalls.filter isSendEmailCall =
        s.externalCalls.filter isSendEmailCall := by
  refine ⟨_, handlePaymentFailed_existing_eq env now pi s acct user email ex
    hacct huser hres hfind, ?_, ?_, rfl, ?_⟩
  · simp
  · refine ⟨bumpAttempt ex.id ex,
      List.mem_map_of_mem _ (List.mem_of_find?_eq_some hfind),
      bumpAttempt_id _ _, ?_⟩
    rw [bumpAttempt_eq_of_id ex.id ex rfl]
    simp [hone]
  · rw [List.filter_append, resolveCalls_no_send, List.append_nil]

/-- Witness for C3 at the concrete redelivery fixture. -/
theorem redelivery_increments_without_duplicate_witness :
    ∃ s2, handlePaymentFailed cEnv 1000 cPI cStateWithRow = Except.ok s2 ∧
      s2.db.failedPayments.length = cStateWithRow.db.failedPayments.length ∧
      (∃ fp2 ∈ s2.db.failedPayments, fp2.id = cFailedRow.id ∧ fp2.attemptCount = 2) ∧
      s2.db.dunningLogs = cStateWithRow.db.dunningLogs ∧
      s2.externalCalls.filter isSendEmailCall =
        cStateWithRow.externalCalls.filter isSendEmailCall :=
  redelivery_increments_without_duplicate cEnv 1000 cPI cStateWithRow "acct_1"
    cUser "customer@shop.com" cFailedRow rfl rfl rfl rfl rfl

/-- C8: when the owning user has no enabled `first_failure` template, a new
    failure still creates the FailedPayment row but appends no DunningLog
    row and makes no email call. -/
theorem missing_template_skips_notification (env : Env) (now : Nat)
    (pi : PaymentIntent) (s : ServerState) (acct : String) (user : User)
    (email : String)
    (hacct : pi.on_behalf_of = some acct)
    (huser : s.db.users.find? (fun u => u.stripeAccountId == some acct) = some user)
    (hres : (resolveCustomerEmail env pi).1 = Except.ok (some email))
    (hnone : s.db.failedPayments.find?
      (fun fp => fp.stripePaymentIntentId == pi.id) = none)
    (htempl : s.db.emailTemplates.find? (fun t =>
      t.userId == user.id && t.type == "first_failure" && t.isEnabled) = none) :
    ∃ s2, handlePaymentFailed env now pi s = Except.ok s2 ∧
      (∃ fp, s2.db.failedPayments = s.db.failedPayments ++ [fp] ∧
        fp.status = "failed" ∧ fp.attemptCount = 1) ∧
      s2.db.dunningLogs = s.db.dunningLogs ∧
      s2.externalCalls.filter isSendEmailCall =
        s.externalCalls.filter isSendEmailCall := by
  have hins := handlePaymentFailed_insert_eq env now pi s acct user email
    hacct huser hres hnone
  have htempl' : ({ s with
      externalCalls := s.externalCalls ++ (resolveCustomerEmail env pi).2,
      db := { s.db with
        failedPayments := s.db.failedPayments ++ [{
          id := s.db.nextFailedPaymentId,
          userId := user.id,
          stripePaymentIntentId := pi.id,
          stripeCustomerId := pi.customer.getD "",
          customerEmail := email,
          amount := pi.amount,
          currency := pi.currency,
          status := "failed",
          failureReason := pi.last_payment_error_message,
          attemptCount := 1,
          nextRetryAt := some (now + 24 * 60 * 60 * 1000),
          createdAt := now,
          recoveredAt := none }],
        nextFailedPaymentId := s.db.nextFailedPaymentId + 1 } } :
      ServerState).db.emailTemplates.find? (fun t =>
        t.userId == user.id && t.type == "first_failure" && t.isEnabled) = none :=
    htempl
  rw [sendDunningEmail_skip _ _ _ _ _ htempl'] at hins
  refine ⟨_, hins, ⟨_, rfl, rfl, rfl⟩, rfl, ?_⟩
  rw [List.filter_append, resolveCalls_no_send, List.append_nil]

/-- Witness for C8 at the template-less user fixture. -/
theorem missing_template_skips_notification_witness :
    ∃ s2, handlePaymentFailed cEnv 300 cPINoTemplate cStateNoTemplate = Except.ok s2 ∧
      (∃ fp, s2.db.failedPayments = cStateNoTemplate.db.failedPayments ++ [fp] ∧
        fp.status = "failed" ∧ fp.attemptCount = 1) ∧
      s2.db.dunningLogs = cStateNoTemplate.db.dunningLogs ∧
      s2.externalCalls.filter isSendEmailCall =
        cStateNoTemplate.externalCalls.filter isSendEmailCall :=
  missing_template_skips_notification cEnv 300 cPINoTemplate cStateNoTemplate
    "acct_9" cUserNoTemplate "buyer@shop.com" rfl rfl rfl rfl rfl

/-- C10: a re-failure of an already-recovered payment intent increments the
    attemptCount of the recovered row, leaves its status `"recovered"`, inserts
    no new row, and appends no DunningLog row and no email call. -/
theorem refailure_after_recovery_no_new_row (env : Env) (now : Nat)
    (pi : PaymentIntent) (s : ServerState) (acct : String) (user : User)
    (email : String) (ex : FailedPayment)
    (hacct : pi.on_behalf_of = some acct)
    (huser : s.db.users.find? (fun u => u.stripeAccountId == some acct) = some user)
    (hres : (resolveCustomerEmail env pi).1 = Except.ok (some email))
    (hfind : s.db.failedPayments.find?
      (fun fp => fp.stripePaymentIntentId == pi.id) = some ex)
    (hrec : ex.status = "recovered") :
    ∃ s2, handlePaymentFailed env now pi s = Except.ok s2 ∧
      s2.db.failedPayments.length = s.db.failedPayments.length ∧
      (∃ fp2 ∈ s2.db.failedPayments, fp2.id = ex.id ∧ fp2.status = "recovered" ∧
        fp2.attemptCount = ex.attemptCount + 1) ∧
      s2.db.dunningLogs = s.db.dunningLogs ∧
      s2.externalCalls.filter isSendEmailCall =
        s.externalCalls.filter isSendEmailCall := by
  refine ⟨_, handlePaymentFailed_existing_eq env now pi s acct user email ex
    hacct huser hres hfind, ?_, ?_, rfl, ?_⟩
  · simp
  · refine ⟨bumpAttempt ex.id ex,
      List.mem_map_of_mem _ (List.mem_of_find?_eq_some hfind),
      bumpAttempt_id _ _, ?_, ?_⟩
    · rw [bumpAttempt_status]; exact hrec
    · rw [bumpAttempt_eq_of_id ex.id ex rfl]
  · rw [List.filter_append, resolveCalls_no_send, List.append_nil]

/-- Witness for C10 at the recovered-row fixture. -/
theorem refailure_after_recovery_no_new_row_witness :
    ∃ s2, handlePaymentFailed cEnv 2000 cPI cStateRecovered = Except.ok s2 ∧
      s2.db.failedPayments.length = cStateRecovered.db.failedPayments.length ∧
      (∃ fp2 ∈ s2.db.failedPayments, fp2.id = cRecoveredRow.id ∧
        fp2.status = "recovered" ∧
        fp2.attemptCount = cRecoveredRow.attemptCount + 1) ∧
      s2.db.dunningLogs = cStateRecovered.db.dunningLogs ∧
      s2.externalCalls.filter isSendEmailCall =
        cStateRecovered.externalCalls.filter isSendEmailCall :=
  refailure_after_recovery_no_new_row cEnv 2000 cPI cStateRecovered "acct_1"
    cUser "customer@shop.com" cRecoveredRow rfl rfl rfl rfl rfl

/-- C4: a `payment_intent.succeeded` event for a tracked, still-failed
    payment marks the row recovered and stamps recoveredAt; a second
    succeeded event for the same payment-intent id is a no-op (status stays
    `"recovered"`, recoveredAt unchanged). -/
theorem success_recovers_once_idempotent (now now2 : Nat) (pi : PaymentIntent)
    (s : ServerState) (fp : FailedPayment)
    (hfind : s.db.failedPayments.find?
      (fun p => p.stripePaymentIntentId == pi.id) = some fp)
    (hst : fp.status = "failed") :
    handlePaymentSucceeded now pi s =
      { s with db := { s.db with
        failedPayments := s.db.failedPayments.map (markRecovered fp.id now) } } ∧
    (∃ fp1 ∈ (handlePaymentSucceeded now pi s).db.failedPayments,
      fp1.id = fp.id ∧ fp1.status = "recovered" ∧ fp1.recoveredAt = some now) ∧
    handlePaymentSucceeded now2 pi (handlePaymentSucceeded now pi s) =
      handlePaymentSucceeded now pi s := by
  have h1 : handlePaymentSucceeded now pi s =
      { s with db := { s.db with
        failedPayments := s.db.failedPayments.map (markRecovered fp.id now) } } := by
    unfold handlePaymentSucceeded
    rw [hfind]
    simp [hst]
  have hmap : (s.db.failedPayments.map (markRecovered fp.id now)).find?
      (fun p => p.stripePaymentIntentId == pi.id) =
      some (markRecovered fp.id now fp) := by
    rw [find?_map_pred (markRecovered fp.id now) _
      (fun x => by rw [markRecovered_piId]) s.db.failedPayments, hfind]
    rfl
  refine ⟨h1, ?_, ?_⟩
  · rw [h1]
    refine ⟨markRecovered fp.id now fp,
      List.mem_map_of_mem _ (List.mem_of_find?_eq_some hfind),
      markRecovered_id _ _ _, ?_, ?_⟩
    · rw [markRecovered_eq_of_id fp.id now fp rfl]
    · rw [markRecovered_eq_of_id fp.id now fp rfl]
  · rw [h1]
    unfold handlePaymentSucceeded
    simp only [hmap]
    rw [markRecovered_eq_of_id fp.id now fp rfl]
    simp

/-- Witness for C4 at the concrete tracked-payment fixture. -/
theorem success_recovers_once_idempotent_witness :
    handlePaymentSucceeded 100 cPI cStateWithRow =
      { cStateWithRow with db := { cStateWithRow.db with
        failedPayments := cStateWithRow.db.failedPayments.map
          (markRecovered cFailedRow.id 100) } } ∧
    (∃ fp1 ∈ (handlePaymentSucceeded 100 cPI cStateWithRow).db.failedPayments,
      fp1.id = cFailedRow.id ∧ fp1.status = "recovered" ∧
      fp1.recoveredAt = some 100) ∧
    handlePaymentSucceeded 200 cPI (handlePaymentSucceeded 100 cPI cStateWithRow) =
      handlePaymentSucceeded 100 cPI cStateWithRow :=
  success_recovers_once_idempotent 100 200 cPI cStateWithRow cFailedRow rfl rfl

/-- C5: a webhook request with a missing signature header, a missing secret,
    or a signature that fails verification yields a 400 response and leaves
    the entire server state (all tables and the external-call trace)
    untouched. -/
theorem invalid_signature_no_state_change (env : Env) (now : Nat)
    (req : WebhookRequest) (s : ServerState)
    (h : req.sigHeader = none ∨ env.webhookSecret = "" ∨
      ∀ sig, req.sigHeader = some sig →
        env.constructEvent req.rawBody sig = none) :
    stripeWebhook env now req s = (400, s) := by
  unfold stripeWebhook
  rcases h with h | h | h
  · rw [h]
  · cases hs : req.sigHeader with
    | none => rfl
    | some sig => simp [h]
  · cases hs : req.sigHeader with
    | none => rfl
    | some sig =>
      by_cases hw : env.webhookSecret = ""
      · simp [hw]
      · simp [hw, h sig hs]

/-- Witness for C5 with a missing signature header. -/
theorem invalid_signature_no_state_change_witness :
    stripeWebhook cEnv 0 { rawBody := "payload", sigHeader := none } cState =
      (400, cState) :=
  invalid_signature_no_state_change cEnv 0
    { rawBody := "payload", sigHeader := none } cState (Or.inl rfl)

/-- Counterexample to C6: with a valid signature but a Stripe customer fetch
    that throws during event processing, the webhook route responds 500 —
    the processing error is surfaced to the processor, not swallowed into a
    200-equivalent acknowledgment. -/
theorem webhook_swallows_errors_counterexample :
    (stripeWebhook cEnvThrow 0 cReq cState).1 = 500 ∧
    ¬ (stripeWebhook cEnvThrow 0 cReq cState).1 = 200 := by
  constructor <;> decide

/-- C6 (amended): once signature verification passes, the webhook route
    returns 200 exactly when event processing completes without throwing; a
    thrown processing error is caught and answered with a 500 response
    carrying the state at throw time, rather than being swallowed. -/
theorem webhook_ack_success_500_on_throw (env : Env) (now : Nat)
    (req : WebhookRequest) (s : ServerState) (sig : String) (ev : WebhookEvent)
    (hsig : req.sigHeader = some sig)
    (hsecret : ¬ env.webhookSecret = "")
    (hev : env.constructEvent req.rawBody sig = some ev) :
    stripeWebhook env now req s =
      (match processEvent env now ev s with
        | .ok s2 => (200, s2)
        | .error (_, sErr) => (500, sErr)) := by
  unfold stripeWebhook
  rw [hsig]
  simp only []
  rw [if_neg hsecret, hev]

/-- Witness for C6 at the throwing fixture. -/
theorem webhook_ack_success_500_on_throw_witness :
    stripeWebhook cEnvThrow 0 cReq cState =
      (match processEvent cEnvThrow 0
          (WebhookEvent.paymentIntentFailed cPIThrow) cState with
        | .ok s2 => (200, s2)
        | .error (_, sErr) => (500, sErr)) :=
  webhook_ack_success_500_on_throw cEnvThrow 0 cReq cState "t=1,v1=sig"
    (WebhookEvent.paymentIntentFailed cPIThrow) rfl (by decide) rfl

/-- Counterexample to C7: a second successful recovery call on an
    already-recovered record succeeds (200) but overwrites the recoveredAt
    timestamp, so the state of the record does not stay unchanged. -/
theorem recovery_restamps_counterexample :
    (updatePaymentMethod cEnv 200 1 "pm_b"
        (updatePaymentMethod cEnv 100 1 "pm_a" cStateWithRow).2).1 = 200 ∧
    ((updatePaymentMethod cEnv 200 1 "pm_b"
        (updatePaymentMethod cEnv 100 1 "pm_a" cStateWithRow).2).2.db.failedPayments.map
      (fun fp => fp.recoveredAt)) ≠
    ((updatePaymentMethod cEnv 100 1 "pm_a" cStateWithRow).2.db.failedPayments.map
      (fun fp => fp.recoveredAt)) := by
  constructor <;> decide

/-- C7 (amended): a successful recovery call marks the targeted row
    recovered; a second call on the already-recovered record also succeeds
    (200, no error) and keeps status `"recovered"`, but the blind
    update overwrites recoveredAt with the time of the second call instead of
    leaving it unchanged. -/
theorem recovery_idempotent_status_but_restamps (env : Env)
    (now now2 pid : Nat) (pm pm2 : String) (s : ServerState)
    (payment : FailedPayment)
    (hfind : s.db.failedPayments.find? (fun fp => fp.id == pid) = some payment)
    (hupd : ∀ c p, env.customersUpdate c p = Except.ok ())
    (hconf : ∀ i, env.confirmIntent i = Except.ok ()) :
    (updatePaymentMethod env now pid pm s).1 = 200 ∧
    (updatePaymentMethod env now pid pm s).2.db.failedPayments =
      s.db.failedPayments.map (markRecovered pid now) ∧
    (updatePaymentMethod env now2 pid pm2
        (updatePaymentMethod env now pid pm s).2).1 = 200 ∧
    (∃ fp1 ∈ (updatePaymentMethod env now2 pid pm2
        (updatePaymentMethod env now pid pm s).2).2.db.failedPayments,
      fp1.id = payment.id ∧ fp1.status = "recovered" ∧
      fp1.recoveredAt = some now2) := by
  have h1 := updatePaymentMethod_success_eq env now pid pm s payment hfind
    (hupd _ _) (hconf _)
  have hpid : payment.id = pid := by
    have h := List.find?_some hfind
    simpa using h
  have hf2 : (updatePaymentMethod env now pid pm s).2.db.failedPayments.find?
      (fun fp => fp.id == pid) = some (markRecovered pid now payment) := by
    rw [h1]
    rw [find?_map_pred (markRecovered pid now) _
      (fun x => by rw [markRecovered_id]) s.db.failedPayments, hfind]
    rfl
  have h2 := updatePaymentMethod_success_eq env now2 pid pm2
    (updatePaymentMethod env now pid pm s).2 (markRecovered pid now payment)
    hf2 (hupd _ _) (hconf _)
  refine ⟨by rw [h1], by rw [h1], by rw [h2], ?_⟩
  rw [h2, h1]
  refine ⟨markRecovered pid now2 (markRecovered pid now payment),
    List.mem_map_of_mem _ (List.mem_map_of_mem _
      (List.mem_of_find?_eq_some hfind)), ?_, ?_, ?_⟩
  · rw [markRecovered_id, markRecovered_id]
  · rw [markRecovered_eq_of_id pid now2 _ (by rw [markRecovered_id]; exact hpid)]
  · rw [markRecovered_eq_of_id pid now2 _ (by rw [markRecovered_id]; exact hpid)]

/-- Witness for C7 at the concrete recovery fixture. -/
theorem recovery_idempotent_status_but_restamps_witness :
    (updatePaymentMethod cEnv 100 1 "pm_a" cStateWithRow).1 = 200 ∧
    (updatePaymentMethod cEnv 100 1 "pm_a" cStateWithRow).2.db.failedPayments =
      cStateWithRow.db.failedPayments.map (markRecovered 1 100) ∧
    (updatePaymentMethod cEnv 200 1 "pm_b"
        (updatePaymentMethod cEnv 100 1 "pm_a" cStateWithRow).2).1 = 200 ∧
    (∃ fp1 ∈ (updatePaymentMethod cEnv 200 1 "pm_b"
        (updatePaymentMethod cEnv 100 1 "pm_a" cStateWithRow).2).2.db.failedPayments,
      fp1.id = cFailedRow.id ∧ fp1.status = "recovered" ∧
      fp1.recoveredAt = some 200) :=
  recovery_idempotent_status_but_restamps cEnv 100 200 1 "pm_a" "pm_b"
    cStateWithRow cFailedRow rfl (fun _ _ => rfl) (fun _ => rfl)

/-- C9: for amount 4999 in minor units and currency usd, the rendered amount
    placeholder is exactly `$49.99`, both for the formatter itself and for
    the full dunning email rendered at the concrete fixture. -/
theorem amount_placeholder_renders_usd :
    formatAmount 4999 = "$49.99" ∧
    (sendDunningEmail cEnv 0 1 7 cStateWithRow).externalCalls =
      [ExternalCall.sendEmail "customer@shop.com" "Payment failed"
        "Pay $49.99"] := by
  constructor
  · rfl
  · rfl

end Retainr
